import Mathlib

/-!
A verification development for the session-relay and subprocess-supervision
core of `bot.py` (claude-code-telegram-bridge).

The Python source is shallowly embedded: pure helpers become Lean functions
over `List Char` / `String`, the external agent subprocess is an oracle
(`ProcBehavior`) consumed by `run_claude`, and the stateful relay /
compaction / authorization flows become explicit state-passing functions on
a `Session` record.  Machine-level details that no property here depends on
(the cosmetic cost/turns/duration trailer, which involves floats, and the
exact Telegram transport) are elided and noted at the definition concerned.
-/

namespace Bridge

/-! ## Configuration constants (bot.py lines 48-50) -/

/-- Default `COMMAND_TIMEOUT`, seconds (bot.py line 48). -/
def COMMAND_TIMEOUT : Nat := 900

/-- Default `STALE_TIMEOUT`, seconds (bot.py line 49). -/
def STALE_TIMEOUT : Nat := 60

/-- Transport limit `MAX_MSG_LEN` (bot.py line 50). -/
def MAX_MSG_LEN : Nat := 4096

/-! ## Python truthiness for optional strings

`bot.py` tests handles with plain truthiness (`if sid:`, `if new_sid:`,
`if not session.session_id`), so `None` and the empty string both count as
"no handle". -/

/-- Python truthiness of an `Optional[str]`: `None` and `""` are falsy. -/
def isTruthy : Option String → Bool
  | none => false
  | some s => !(s == "")

/-- Python `str.strip()`: remove leading and trailing whitespace. -/
def pyStrip (s : String) : String :=
  String.mk (((s.data.dropWhile Char.isWhitespace).reverse.dropWhile
    Char.isWhitespace).reverse)

/-! ## Message chunking (`_split_message`, bot.py lines 515-534)

Python's `str.rfind(sub, 0, end)` returns the greatest index `i ≤ end -
len(sub)` at which `sub` occurs, or `-1`.  The loop body computes a cut
index through the ladder paragraph-break / line-break / word-boundary /
hard-cut, appends `text[:cut]`, and strips leading newlines from the
remainder.  The Python `while` loop is embedded with explicit fuel. -/

/-- Python `text.rfind(c, 0, endPos)` for a single character `c`:
greatest `i < endPos` with `text[i] = c`, else `-1`. -/
def pyRfindChar (l : List Char) (c : Char) (endPos : Nat) : Int :=
  match ((List.range endPos).filter (fun i => l.get? i == some c)).getLast? with
  | some i => (i : Int)
  | none => -1

/-- Python `text.rfind("\n\n", 0, endPos)`: greatest `i` with `i + 2 ≤ endPos` and
`text[i] = text[i+1] = '\n'`, else `-1`. -/
def pyRfindNl2 (l : List Char) (endPos : Nat) : Int :=
  match ((List.range (endPos - 1)).filter
      (fun i => l.get? i == some '\n' && l.get? (i + 1) == some '\n')).getLast? with
  | some i => (i : Int)
  | none => -1

/-- Step `cut = text.rfind("\n\n", 0, limit)` (bot.py line 525). -/
def splitCut1 (text : List Char) (limit : Nat) : Int :=
  pyRfindNl2 text limit

/-- Step `if cut < limit // 4: cut = text.rfind("\n", 0, limit)` (bot.py lines 526-527). -/
def splitCut2 (text : List Char) (limit : Nat) : Int :=
  if splitCut1 text limit < ((limit / 4 : Nat) : Int) then pyRfindChar text '\n' limit
  else splitCut1 text limit

/-- Step `if cut < limit // 4: cut = text.rfind(" ", 0, limit)` (bot.py lines 528-529). -/
def splitCut3 (text : List Char) (limit : Nat) : Int :=
  if splitCut2 text limit < ((limit / 4 : Nat) : Int) then pyRfindChar text ' ' limit
  else splitCut2 text limit

/-- Step `if cut < limit // 4: cut = limit` (bot.py lines 530-531), as an integer. -/
def splitCutI (text : List Char) (limit : Nat) : Int :=
  if splitCut3 text limit < ((limit / 4 : Nat) : Int) then (limit : Int)
  else splitCut3 text limit

/-- The final cut position used for slicing (always ≥ 0 by the ladder). -/
def splitCut (text : List Char) (limit : Nat) : Nat :=
  (splitCutI text limit).toNat

/-- The `while text:` loop of `_split_message` (bot.py lines 521-533), with
fuel; `acc` holds the chunks built so far, reversed.  Each iteration appends
`text[:cut]` and continues with `text[cut:].lstrip("\n")`. -/
def splitGo : Nat → List Char → Nat → List (List Char) → Option (List (List Char))
  | 0, _, _, _ => none
  | fuel + 1, text, limit, acc =>
    if text = [] then some acc.reverse
    else if text.length ≤ limit then some (acc.reverse ++ [text])
    else
      splitGo fuel ((text.drop (splitCut text limit)).dropWhile (fun c => c == '\n'))
        limit (text.take (splitCut text limit) :: acc)

/-- Function `_split_message(text, limit)` (bot.py lines 515-534).  `none` means the
fuel ran out; `text.length + 1` iterations suffice whenever the loop makes
progress (proved below for `limit ≥ 4`). -/
def split_message (text : List Char) (limit : Nat) : Option (List (List Char)) :=
  if text.length ≤ limit then some [text]
  else splitGo (text.length + 1) text limit []

/-- Concatenate chunk/separator pairs: each chunk followed by the run of
newlines that `lstrip("\n")` removed after it. -/
def joinChunks : List (List Char × List Char) → List Char
  | [] => []
  | (c, s) :: rest => c ++ s ++ joinChunks rest

/-- A separator consists only of newline characters. -/
def allNewlines (s : List Char) : Prop := ∀ c ∈ s, c = '\n'

/-- The chunk list reassembles the original text once the stripped newline
separators are re-inserted (one, possibly empty, run after each chunk). -/
def Reassembles (chunks : List (List Char)) (text : List Char) : Prop :=
  ∃ seps : List (List Char), seps.length = chunks.length ∧
    (∀ s ∈ seps, allNewlines s) ∧ joinChunks (chunks.zip seps) = text

/-- Divergence of the `_split_message` loop on a given input: no amount of
fuel makes it return. -/
def splitDivergesOn (text : List Char) (limit : Nat) : Prop :=
  ∀ fuel acc, splitGo fuel text limit acc = none

/-! ## The agent subprocess and `run_claude` (bot.py lines 453-507)

The external `claude` process is opaque; we model one invocation's
observable behaviour as an oracle value.  `exitOkJson` is the case where the
process exits 0 and stdout parses as a JSON object — the parsed fields the
code reads are carried directly.  `exitOkRaw` is exit 0 with unparseable
stdout.  `run_claude` maps the oracle to the result dict exactly as the
Python does. -/

/-- The result dict of `run_claude` as read by the callers: the fields
`is_error`, `timed_out`, `result`, `session_id`.  The cosmetic metadata
fields (`cost_usd`, `num_turns`, `duration_ms`) only feed the display
trailer and are elided.  A missing `result` key is represented as `""`. -/
structure RunResult where
  is_error : Bool := false
  timed_out : Bool := false
  result : String := ""
  session_id : Option String := none
deriving Repr, DecidableEq

/-- Observable behaviour of one agent subprocess invocation. -/
inductive ProcBehavior where
  /-- Case where `asyncio.wait_for` raised `TimeoutError`; the process is killed. -/
  | timeout
  /-- Process exited with nonzero `code`, producing `stderr`/`stdout`. -/
  | exitNonzero (stderr stdout : String) (code : Int)
  /-- Process exited 0 and stdout parsed as a JSON object with these fields. -/
  | exitOkJson (parsed : RunResult)
  /-- Process exited 0 but stdout `raw` is not valid JSON. -/
  | exitOkRaw (raw : String)
deriving Repr, DecidableEq

/-- Function `run_claude(prompt, session_id, timeout)` (bot.py lines 453-507) as a
function of the resume handle and the subprocess oracle.  The prompt is
forwarded to the subprocess opaquely and does not influence the result
structure, so it is not a parameter here. -/
def run_claude (session_id : Option String) (timeoutSecs : Nat)
    (beh : ProcBehavior) : RunResult :=
  match beh with
  | .timeout =>
    { is_error := true, timed_out := true,
      result := s!"Timed out after {timeoutSecs}s", session_id := session_id }
  | .exitNonzero stderr stdout code =>
    let err := if pyStrip stderr ≠ "" then pyStrip stderr
      else if pyStrip stdout ≠ "" then pyStrip stdout
      else s!"Exit code {code}"
    { is_error := true, result := err, session_id := session_id }
  | .exitOkJson parsed => parsed
  | .exitOkRaw raw => { result := pyStrip raw, session_id := session_id }

/-! ## Session state (bot.py lines 297-349) -/

/-- The `Session` object (bot.py lines 297-308): durable fields plus the
in-memory `busy` flag and `pending_skill`. -/
structure Session where
  session_id : Option String := none
  created_at : Option String := none
  message_count : Nat := 0
  busy : Bool := false
  pending_skill : Option String := none
deriving Repr, DecidableEq

/-- The durable record written by `_save_sessions` (`Session.to_dict`,
bot.py lines 310-315). -/
structure SessionRec where
  session_id : Option String
  created_at : Option String
  message_count : Nat
deriving Repr, DecidableEq

/-- Method `Session.to_dict` (bot.py lines 310-315): the persisted projection. -/
def Session.toRec (s : Session) : SessionRec :=
  ⟨s.session_id, s.created_at, s.message_count⟩

/-! ## Result formatting (`_format_result`, bot.py lines 537-557)

The metadata trailer (cost/turns/duration) is elided; it only appends a
cosmetic suffix and involves floating point. -/

/-- Function `_format_result` (bot.py lines 537-557), without the metadata trailer.
A `result` of `""` stands for a missing `result` key, hence the
`'unknown error'` default on the error branch. -/
def format_result (data : RunResult) : String :=
  if data.is_error then
    "Error:\n" ++ (if data.result = "" then "unknown error" else data.result)
  else if data.result = "" then "(done — no output)"
  else data.result

/-! ## The relay (`_relay`, bot.py lines 747-792)

One big-step execution of `_relay` for a single chat.  The two possible
subprocess invocations and the per-chunk delivery outcomes are supplied by
an environment of oracles; `now` is the timestamp `datetime.now()` would
format.  The returned record exposes everything the claims observe: the
final session object, the snapshots persisted by `_save_sessions`, the
`session_id` argument of each `run_claude` call in order, whether the busy
notice was sent, and whether an exception escaped the `try` body (it is
still caught by the `finally`, which clears `busy`). -/

/-- Outcome of one `reply_text` chunk delivery: success, Markdown parse
failure with successful plain-text fallback, or both attempts failing (the
second exception propagates out of the send loop). -/
inductive DeliverBehavior where
  | ok
  | mdFails
  | bothFail
deriving Repr, DecidableEq, BEq

/-- Oracles for one `_relay` execution. -/
structure RelayEnv where
  /-- Behaviour of the first `run_claude` invocation. -/
  beh1 : ProcBehavior
  /-- Behaviour of the retry invocation, if one happens. -/
  beh2 : ProcBehavior
  /-- Delivery outcome for chunk `i`. -/
  deliver : Nat → DeliverBehavior
  /-- Whether `_format_result` itself raises (e.g. malformed metadata types). -/
  formatRaises : Bool
  /-- Timestamp `datetime.now().strftime(...)`. -/
  now : String

/-- Observable outcome of one `_relay` call. -/
structure RelayOut where
  session : Session
  saves : List SessionRec
  calls : List (Option String)
  sentBusyNotice : Bool
  exc : Bool
deriving Repr

/-- Step `sid = None if new_session else session.session_id` (bot.py line 764). -/
def relaySid (s : Session) (newSession : Bool) : Option String :=
  if newSession then none else s.session_id

/-- The retry guard (bot.py line 768):
`result.get("is_error") and sid and not result.get("timed_out")`. -/
def relayRetried (r1 : RunResult) (sid : Option String) : Bool :=
  r1.is_error && isTruthy sid && !r1.timed_out

/-- Function `_split_message` at the fixed transport limit; total because
`MAX_MSG_LEN = 4096 ≥ 4` (the default never hits `getD`, see
`split_message_terminates` below). -/
def splitAtLimit (text : List Char) : List (List Char) :=
  (split_message text MAX_MSG_LEN).getD [text]

/-- The result `_relay` ends up holding after the retry decision
(bot.py lines 764-770): the first invocation's result, or — when that was
an error, a resume handle was in use, and it was not a timeout — the result
of the single retry made without a handle. -/
def relayFinal (s : Session) (ns : Bool) (env : RelayEnv) : RunResult :=
  let sid := relaySid s ns
  let r1 := run_claude sid COMMAND_TIMEOUT env.beh1
  if relayRetried r1 sid then run_claude none COMMAND_TIMEOUT env.beh2 else r1

/-- The `session_id` arguments of the `run_claude` invocations `_relay`
makes, in order (bot.py lines 764-770). -/
def relayCalls (s : Session) (ns : Bool) (env : RelayEnv) : List (Option String) :=
  let sid := relaySid s ns
  let r1 := run_claude sid COMMAND_TIMEOUT env.beh1
  if relayRetried r1 sid then [sid, none] else [sid]

/-- The session-tracking update (bot.py lines 772-779): performed exactly
when the final result's `session_id` is truthy; `created_at` is restamped
when the session had no handle or this was a forced-new-session call. -/
def relayUpdate (s : Session) (ns : Bool) (r : RunResult) (now : String) : Session :=
  if isTruthy r.session_id then
    { s with
      session_id := r.session_id,
      created_at := if !isTruthy s.session_id || ns then some now else s.created_at,
      message_count := s.message_count + 1 }
  else s

/-- Function `_relay(update, prompt, new_session)` (bot.py lines 747-792) for one
chat.  The prompt is forwarded opaquely.  Structure mirrors the source:
busy gate, `busy = True`, first invocation, retry-without-handle, session
update and persist, format, chunk, per-chunk delivery with plain-text
fallback, and a `finally` that clears `busy` on every path. -/
def relay (s : Session) (newSession : Bool) (env : RelayEnv) : RelayOut :=
  if s.busy then
    { session := s, saves := [], calls := [], sentBusyNotice := true, exc := false }
  else
    let result := relayFinal s newSession env
    let s1 := relayUpdate s newSession result env.now
    let saves := if isTruthy result.session_id then [s1.toRec] else []
    let response := format_result result
    let chunks := splitAtLimit response.toList
    let exc := env.formatRaises ||
      (List.range chunks.length).any (fun i => env.deliver i == DeliverBehavior.bothFail)
    { session := { s1 with busy := false }, saves := saves,
      calls := relayCalls s newSession env, sentBusyNotice := false, exc := exc }

/-! ## Compaction (`cmd_compact`, bot.py lines 1232-1275)

Two sequential invocations sharing the busy flag: a summary request on the
current handle, then a fresh seeded invocation; on success the session
record is replaced wholesale.  (`handle_callback`'s `ses:compact` branch,
bot.py lines 1045-1080, runs the identical sequence.) -/

/-- Oracles for one `cmd_compact` execution. -/
structure CompactEnv where
  behSummary : ProcBehavior
  behFresh : ProcBehavior
  now : String

/-- Observable outcome of one `cmd_compact` call. -/
structure CompactOut where
  session : Session
  saves : List SessionRec
  calls : List (Option String)
  reply : String
deriving Repr

/-- Handler `cmd_compact` (bot.py lines 1232-1275).  Note the source never checks
`s.busy` before setting it — that gap is examined in the gate model below;
this big-step function captures the sequential data flow. -/
def cmd_compact (s : Session) (env : CompactEnv) : CompactOut :=
  if !isTruthy s.session_id then
    { session := s, saves := [], calls := [],
      reply := "No active session to compact." }
  else
    let summary := run_claude s.session_id COMMAND_TIMEOUT env.behSummary
    let summaryText := summary.result
    if summaryText = "" then
      { session := { s with busy := false }, saves := [],
        calls := [s.session_id], reply := "Failed to generate summary." }
    else
      let fresh := run_claude none COMMAND_TIMEOUT env.behFresh
      let newS : Session :=
        { session_id := fresh.session_id, created_at := some env.now,
          message_count := 1, busy := false, pending_skill := none }
      let old := s.message_count
      { session := newS, saves := [newS.toRec], calls := [s.session_id, none],
        reply := s!"Session compacted ({old} msgs -> fresh start)." }

/-! ## Authorization (`_auth`, bot.py lines 717-727; `_save_owner`, 233-237)

The decorator checks `update.effective_user.id` against the stored owner:
first user wins ownership, any other user gets "Unauthorized." and the
wrapped handler body never runs.  The wrapped handler is an arbitrary state
transformer `handler : α → α` over whatever state it would touch (sessions,
settings, recents, spawned subprocesses); when authorization fails the
state is returned untouched. -/

/-- Decorator `_auth(fn)` applied to one inbound update: returns the owner record
after the call, the (possibly updated) state, and the reply sent in place
of running the handler, if any. -/
def auth_wrapper {α : Type} (handler : α → α) (owner : Option Nat) (uid : Nat)
    (st : α) : Option Nat × α × Option String :=
  match owner with
  | none => (some uid, handler st, none)
  | some o =>
    if uid = o then (some o, handler st, none)
    else (some o, st, some "Unauthorized.")

/-! ## Single-flight gate model (C1)

The busy-gate behaviour lives at the `await` granularity: between a
handler's entry and its first `await` inside `run_claude` no other task
runs (single-threaded cooperative scheduler), so each operation's
gate-check-then-spawn prefix is one atomic step.  `GateState` tracks, for
one chat: the busy flag, the number of currently live (non-terminated)
subprocess invocations, total spawns, and busy notices delivered. -/

structure GateState where
  busy : Bool
  inflight : Nat
  spawns : Nat
  notices : Nat
deriving Repr, DecidableEq

/-- The chat's initial state: idle, nothing spawned. -/
def initGate : GateState := { busy := false, inflight := 0, spawns := 0, notices := 0 }

/-- Step of `_relay` up to its first suspension (bot.py lines 751-765): if `busy`,
deliver the still-working notice and return; else set `busy` and spawn the
first `run_claude` subprocess, which is now in flight. -/
def relayBegin (g : GateState) : GateState :=
  if g.busy then { g with notices := g.notices + 1 }
  else { g with busy := true, inflight := g.inflight + 1, spawns := g.spawns + 1 }

/-- Step of `_relay_from_callback` up to its first suspension (bot.py lines
1089-1104): identical gate logic to `_relay`. -/
def callbackRelayBegin (g : GateState) : GateState :=
  if g.busy then { g with notices := g.notices + 1 }
  else { g with busy := true, inflight := g.inflight + 1, spawns := g.spawns + 1 }

/-- Step of `cmd_compact` up to its first suspension (bot.py lines 1233-1247):
after the handle check it sets `busy = True` and spawns the summary
subprocess WITHOUT checking whether `busy` was already set. -/
def compactBegin (hasSession : Bool) (g : GateState) : GateState :=
  if hasSession then { g with busy := true, inflight := g.inflight + 1, spawns := g.spawns + 1 }
  else g

/-- Step of the `handle_callback` `ses:compact` path (bot.py lines 992-995 then
1045-1051): busy requests are rejected with the notice before any session
action runs, then the same compact sequence begins. -/
def callbackCompactBegin (hasSession : Bool) (g : GateState) : GateState :=
  if g.busy then { g with notices := g.notices + 1 }
  else compactBegin hasSession g

/-- The awaited subprocess terminates (exit, kill, or timeout kill). -/
def procExit (g : GateState) : GateState := { g with inflight := g.inflight - 1 }

/-- The `finally` of a relay/compact call: `busy` is cleared. -/
def opEnd (g : GateState) : GateState := { g with busy := false }

/-! ## CPU watchdog (`_cpu_watchdog`, bot.py lines 425-450)

The watchdog samples the process's accumulated CPU ticks every 10 seconds.
`samples` is the sequence of readings taken by the loop (the list ends when
the process is observed to have exited or the watchdog is cancelled);
`initCpu` is the reading taken before the loop at spawn time.  The result
is `some t` when the watchdog kills the process at sample time `t`, else
`none`. -/

/-- The sampling loop (bot.py lines 431-450).  `lastCpu` is the previous
reading, `staleSince` the time the current stale streak started, `t` the
time of the previous sample. -/
def cpu_watchdog : Nat → Option Nat → Nat → List Nat → Nat → Option Nat
  | _, _, _, [], _ => none
  | lastCpu, staleSince, t, cpu :: rest, staleLimit =>
    let t' := t + 10
    if cpu = lastCpu then
      match staleSince with
      | none => cpu_watchdog lastCpu (some t') t' rest staleLimit
      | some s0 =>
        if t' - s0 > staleLimit then some t'
        else cpu_watchdog lastCpu (some s0) t' rest staleLimit
    else cpu_watchdog cpu none t' rest staleLimit

/-- A full watchdog run: initial reading at time 0, loop samples at
10, 20, 30, …  (bot.py lines 425-450). -/
def watchdogKill (initCpu : Nat) (samples : List Nat) (staleLimit : Nat) : Option Nat :=
  cpu_watchdog initCpu none 0 samples staleLimit

/-! ## Concrete fixtures used by counterexamples and witnesses -/

/-- A fresh chat session: no handle, no messages (the `Session()`
constructor defaults, bot.py lines 297-308). -/
def emptySession : Session :=
  { session_id := none, created_at := none, message_count := 0,
    busy := false, pending_skill := none }

/-- A chat session holding a known-good handle with five messages. -/
def exSession : Session :=
  { session_id := some "h", created_at := some "2024-01-01 10:00",
    message_count := 5, busy := false, pending_skill := none }

/-- An environment whose first invocation times out and whose deliveries
all succeed. -/
def exEnvTimeout : RelayEnv :=
  { beh1 := .timeout, beh2 := .timeout, deliver := fun _ => .ok,
    formatRaises := false, now := "2024-01-02 09:00" }

/-- A compaction environment in which both invocations succeed: the summary
returns the text `"sum"` and the fresh seeded conversation gets the new
handle `"h2"`. -/
def exEnvCompactOk : CompactEnv :=
  { behSummary := .exitOkJson { result := "sum", session_id := some "h" },
    behFresh := .exitOkJson { result := "ok", session_id := some "h2" },
    now := "T2" }

/-- A compaction environment whose invocations would time out (never
reached when the session has no handle). -/
def exEnvCompactTimeout : CompactEnv :=
  { behSummary := .timeout, behFresh := .timeout, now := "T" }

/-! # Theorems -/

/-! ## Chunking: bounds of the cut ladder -/

theorem pyRfindChar_cases (l : List Char) (c : Char) (endPos : Nat) :
    pyRfindChar l c endPos = -1 ∨
      ∃ i : Nat, pyRfindChar l c endPos = (i : Int) ∧ i < endPos := by
  cases h : ((List.range endPos).filter (fun i => l.get? i == some c)).getLast? with
  | none => exact Or.inl (by unfold pyRfindChar; rw [h])
  | some i =>
    refine Or.inr ⟨i, by unfold pyRfindChar; rw [h], ?_⟩
    exact List.mem_range.mp (List.mem_filter.mp (List.mem_of_mem_getLast? h)).1

theorem pyRfindNl2_cases (l : List Char) (endPos : Nat) :
    pyRfindNl2 l endPos = -1 ∨
      ∃ i : Nat, pyRfindNl2 l endPos = (i : Int) ∧ i < endPos := by
  cases h : ((List.range (endPos - 1)).filter
      (fun i => l.get? i == some '\n' && l.get? (i + 1) == some '\n')).getLast? with
  | none => exact Or.inl (by unfold pyRfindNl2; rw [h])
  | some i =>
    refine Or.inr ⟨i, by unfold pyRfindNl2; rw [h], ?_⟩
    have := List.mem_range.mp (List.mem_filter.mp (List.mem_of_mem_getLast? h)).1
    omega

theorem splitCut2_cases (text : List Char) (limit : Nat) :
    splitCut2 text limit = -1 ∨
      ∃ i : Nat, splitCut2 text limit = (i : Int) ∧ i < limit := by
  unfold splitCut2
  by_cases h : splitCut1 text limit < ((limit / 4 : Nat) : Int)
  · rw [if_pos h]; exact pyRfindChar_cases text '\n' limit
  · rw [if_neg h]; exact pyRfindNl2_cases text limit

theorem splitCut3_cases (text : List Char) (limit : Nat) :
    splitCut3 text limit = -1 ∨
      ∃ i : Nat, splitCut3 text limit = (i : Int) ∧ i < limit := by
  unfold splitCut3
  by_cases h : splitCut2 text limit < ((limit / 4 : Nat) : Int)
  · rw [if_pos h]; exact pyRfindChar_cases text ' ' limit
  · rw [if_neg h]; exact splitCut2_cases text limit

/-- For `limit ≥ 4` the cut ladder always yields a cut in `[1, limit]`:
either a natural break at or past `limit / 4 ≥ 1`, or the hard cut at
`limit`. -/
theorem splitCut_bounds (text : List Char) (limit : Nat) (h4 : 4 ≤ limit) :
    1 ≤ splitCut text limit ∧ splitCut text limit ≤ limit := by
  have hq : 1 ≤ limit / 4 := by omega
  unfold splitCut splitCutI
  by_cases h : splitCut3 text limit < ((limit / 4 : Nat) : Int)
  · rw [if_pos h]
    constructor <;> omega
  · rw [if_neg h]
    rcases splitCut3_cases text limit with h1 | ⟨i, hi, hlt⟩
    · rw [h1] at h; omega
    · rw [hi] at h ⊢
      constructor <;> omega

/-- Strict progress of the `_split_message` loop for `limit ≥ 4`: the
remainder after one iteration is strictly shorter. -/
theorem split_progress (text : List Char) (limit : Nat) (h4 : 4 ≤ limit)
    (hlt : limit < text.length) :
    ((text.drop (splitCut text limit)).dropWhile (fun c => c == '\n')).length
      < text.length := by
  obtain ⟨h1, _⟩ := splitCut_bounds text limit h4
  have h2 := (List.dropWhile_sublist
    (l := text.drop (splitCut text limit)) (fun c => c == '\n')).length_le
  have h3 : (text.drop (splitCut text limit)).length
      = text.length - splitCut text limit := List.length_drop _ _
  omega

/-- Full correctness of the fuelled loop, for `limit ≥ 4`: it returns, every
chunk respects the limit, and the chunks reassemble the input once the
stripped newline runs are re-inserted. -/
theorem splitGo_spec :
    ∀ (fuel : Nat) (text : List Char) (acc : List (List Char)) (limit : Nat),
      4 ≤ limit → text.length < fuel →
      ∃ chunks, splitGo fuel text limit acc = some (acc.reverse ++ chunks) ∧
        (∀ ch ∈ chunks, ch.length ≤ limit) ∧ Reassembles chunks text := by
  intro fuel
  induction fuel with
  | zero => intro text acc limit _ hf; omega
  | succ n ih =>
    intro text acc limit h4 hf
    by_cases hnil : text = []
    · subst hnil
      refine ⟨[], by simp [splitGo], by intro ch hch; simp at hch, ?_⟩
      exact ⟨[], rfl, by intro s hs; simp at hs, rfl⟩
    · by_cases hle : text.length ≤ limit
      · refine ⟨[text], ?_, ?_, ?_⟩
        · show (if text = [] then some acc.reverse
              else if text.length ≤ limit then some (acc.reverse ++ [text])
              else splitGo n ((text.drop (splitCut text limit)).dropWhile
                (fun c => c == '\n')) limit (text.take (splitCut text limit) :: acc))
            = some (acc.reverse ++ [text])
          rw [if_neg hnil, if_pos hle]
        · intro ch hch
          simp at hch
          rw [hch]; exact hle
        · refine ⟨[[]], rfl, ?_, by simp [joinChunks]⟩
          intro s hs
          simp at hs
          rw [hs]; intro c hc; simp at hc
      · have hlt : limit < text.length := by omega
        obtain ⟨hc1, hc2⟩ := splitCut_bounds text limit h4
        have hprog := split_progress text limit h4 hlt
        have hfu :
            ((text.drop (splitCut text limit)).dropWhile (fun c => c == '\n')).length
              < n := by omega
        obtain ⟨chunks', heq, hlen', hre'⟩ :=
          ih ((text.drop (splitCut text limit)).dropWhile (fun c => c == '\n'))
            (text.take (splitCut text limit) :: acc) limit h4 hfu
        refine ⟨text.take (splitCut text limit) :: chunks', ?_, ?_, ?_⟩
        · have hstep : splitGo (n + 1) text limit acc =
              splitGo n ((text.drop (splitCut text limit)).dropWhile
                (fun c => c == '\n')) limit (text.take (splitCut text limit) :: acc) := by
            show (if text = [] then some acc.reverse
                else if text.length ≤ limit then some (acc.reverse ++ [text])
                else splitGo n ((text.drop (splitCut text limit)).dropWhile
                  (fun c => c == '\n')) limit (text.take (splitCut text limit) :: acc))
              = _
            rw [if_neg hnil, if_neg hle]
          rw [hstep, heq]
          simp
        · intro ch hch
          rcases List.mem_cons.mp hch with h | h
          · rw [h]
            have := List.length_take (splitCut text limit) text
            simp [this]
            omega
          · exact hlen' ch h
        · obtain ⟨seps', hslen, hsnl, hjoin⟩ := hre'
          refine ⟨(text.drop (splitCut text limit)).takeWhile (fun c => c == '\n')
            :: seps', by simp [hslen], ?_, ?_⟩
          · intro s hs
            rcases List.mem_cons.mp hs with h | h
            · rw [h]
              intro c hc
              have := List.mem_takeWhile_imp hc
              simpa using this
            · exact hsnl s h
          · show text.take (splitCut text limit)
                ++ (text.drop (splitCut text limit)).takeWhile (fun c => c == '\n')
                ++ joinChunks (chunks'.zip seps') = text
            rw [hjoin, List.append_assoc]
            conv_rhs => rw [← List.take_append_drop (splitCut text limit) text]
            congr 1
            exact List.takeWhile_append_dropWhile _ _

/-- Top-level correctness of `_split_message` for `limit ≥ 4`. -/
theorem split_message_spec (text : List Char) (limit : Nat) (h4 : 4 ≤ limit) :
    ∃ chunks, split_message text limit = some chunks ∧
      (∀ ch ∈ chunks, ch.length ≤ limit) ∧ Reassembles chunks text ∧
      (text.length ≤ limit → chunks = [text]) := by
  by_cases hle : text.length ≤ limit
  · refine ⟨[text], by simp [split_message, hle], ?_, ?_, fun _ => rfl⟩
    · intro ch hch
      simp at hch
      rw [hch]; exact hle
    · refine ⟨[[]], rfl, ?_, by simp [joinChunks]⟩
      intro s hs
      simp at hs
      rw [hs]; intro c hc; simp at hc
  · obtain ⟨chunks, heq, hl, hr⟩ :=
      splitGo_spec (text.length + 1) text [] limit h4 (by omega)
    refine ⟨chunks, ?_, hl, hr, fun h => absurd h hle⟩
    rw [split_message, if_neg hle, heq]
    simp

/-- C5 — amended.  For every text and every limit ≥ 4 (in particular the
default `MAX_MSG_LEN = 4096`), `_split_message` returns an ordered chunk
list: every chunk has length ≤ limit, concatenating the chunks with the
stripped newline runs re-inserted reproduces the input exactly, and when
the text already fits the limit the result is the single-element list
`[text]`.  (For limits 1–3 the loop can fail to return; see the
counterexample.) -/
theorem split_message_correct (text : List Char) (limit : Nat) (h4 : 4 ≤ limit) :
    ∃ chunks, split_message text limit = some chunks ∧
      (∀ ch ∈ chunks, ch.length ≤ limit) ∧ Reassembles chunks text ∧
      (text.length ≤ limit → chunks = [text]) :=
  split_message_spec text limit h4

theorem split_message_correct_witness :
    ∃ chunks, split_message "ab cd".toList 4 = some chunks ∧
      (∀ ch ∈ chunks, ch.length ≤ 4) ∧ Reassembles chunks "ab cd".toList ∧
      ("ab cd".toList.length ≤ 4 → chunks = ["ab cd".toList]) :=
  split_message_correct "ab cd".toList 4 (by decide)

/-- C5 — counterexample to the claim as stated ("every positive limit"):
at the positive limit 3 and input `" abcd"`, the word-boundary cut lands at
index 0, `limit // 4 = 0` accepts it, the appended chunk is empty and the
remainder is unchanged, so the loop never returns. -/
theorem split_claim_fails_limit_three :
    0 < 3 ∧ splitDivergesOn [' ', 'a', 'b', 'c', 'd'] 3 := by
  refine ⟨by decide, ?_⟩
  intro fuel
  induction fuel with
  | zero => intro acc; rfl
  | succ n ih =>
    intro acc
    have hstep : splitGo (n + 1) [' ', 'a', 'b', 'c', 'd'] 3 acc =
        splitGo n [' ', 'a', 'b', 'c', 'd'] 3 ([] :: acc) := rfl
    rw [hstep]
    exact ih ([] :: acc)

/-- C8 — amended.  For every text and every limit ≥ 4 (in particular the
default 4096), the `_split_message` loop terminates: each iteration removes
at least one character from the remainder (the cut ladder yields a cut
≥ `limit // 4` ≥ 1 or the hard cut at `limit`), and `text.length + 1`
iterations always suffice.  (For limits 1–3 a cut of 0 can yield an empty
chunk and an unchanged remainder, and the loop never returns; see the
counterexample.) -/
theorem split_message_terminates :
    (∀ (text : List Char) (limit : Nat), 4 ≤ limit → limit < text.length →
      ((text.drop (splitCut text limit)).dropWhile (fun c => c == '\n')).length
        < text.length) ∧
    (∀ (text : List Char) (limit : Nat), 4 ≤ limit →
      (split_message text limit).isSome = true) := by
  constructor
  · exact fun text limit h4 hlt => split_progress text limit h4 hlt
  · intro text limit h4
    obtain ⟨chunks, heq, -⟩ := split_message_spec text limit h4
    rw [heq]
    rfl

theorem split_message_terminates_witness :
    ((("abcdefgh".toList.drop (splitCut "abcdefgh".toList 4)).dropWhile
        (fun c => c == '\n')).length < "abcdefgh".toList.length) ∧
    (split_message "abcdefgh".toList 4).isSome = true :=
  ⟨split_message_terminates.1 "abcdefgh".toList 4 (by decide) (by decide),
   split_message_terminates.2 "abcdefgh".toList 4 (by decide)⟩

/-- C8 — counterexample to the claim as stated ("for every positive
limit"): at limit 1 and input `" a"`, the cut is 0, the chunk is empty and
the remainder unchanged, so no iteration makes progress and the loop never
terminates. -/
theorem split_diverges_limit_one :
    0 < 1 ∧ splitDivergesOn [' ', 'a'] 1 := by
  refine ⟨by decide, ?_⟩
  intro fuel
  induction fuel with
  | zero => intro acc; rfl
  | succ n ih =>
    intro acc
    have hstep : splitGo (n + 1) [' ', 'a'] 1 acc =
        splitGo n [' ', 'a'] 1 ([] :: acc) := rfl
    rw [hstep]
    exact ih ([] :: acc)

/-! ## `run_claude`: the degraded-success path (C7) -/

/-- C7 — counterexample to the claim as stated: a run that exits 0 with
unparseable stdout while a resume handle `"h"` was in use yields a success
whose `session_id` is the handle that was passed in — not none — and whose
text is the whitespace-stripped raw output, not the raw output verbatim
(bot.py lines 504-507 echo the `session_id` argument). -/
theorem degraded_result_echoes_handle :
    run_claude (some "h") 900 (.exitOkRaw " hello\n") =
      { is_error := false, timed_out := false, result := "hello",
        session_id := some "h" } ∧
    (run_claude (some "h") 900 (.exitOkRaw " hello\n")).session_id ≠ none ∧
    (run_claude (some "h") 900 (.exitOkRaw " hello\n")).result ≠ " hello\n" := by
  refine ⟨?_, ?_, ?_⟩ <;> decide

/-- C7 — amended.  A run that exits 0 with stdout that cannot be parsed as
JSON is returned as a success (`is_error` and `timed_out` unset) whose text
is the raw output stripped of surrounding whitespace and whose
`session_id` echoes the resume handle the invocation was made with — so it
is none exactly for a fresh (no-handle) call. -/
theorem degraded_result_spec (sid : Option String) (t : Nat) (raw : String) :
    run_claude sid t (.exitOkRaw raw) =
      { is_error := false, timed_out := false, result := pyStrip raw,
        session_id := sid } :=
  rfl

/-! ## `_relay`: busy flag, retry policy, session mutation (C2, C3, C4) -/

/-- The busy gate rejects without invoking anything. -/
theorem relay_busy_rejects (s : Session) (ns : Bool) (env : RelayEnv)
    (h : s.busy = true) :
    relay s ns env =
      { session := s, saves := [], calls := [], sentBusyNotice := true,
        exc := false } := by
  unfold relay
  rw [if_pos h]

/-- The calls a non-rejected `_relay` makes. -/
theorem relay_calls_eq (s : Session) (ns : Bool) (env : RelayEnv)
    (h : s.busy = false) :
    (relay s ns env).calls = relayCalls s ns env := by
  unfold relay
  rw [if_neg (by simp [h])]

/-- The session a non-rejected `_relay` leaves behind. -/
theorem relay_session_eq (s : Session) (ns : Bool) (env : RelayEnv)
    (h : s.busy = false) :
    (relay s ns env).session =
      { relayUpdate s ns (relayFinal s ns env) env.now with busy := false } := by
  unfold relay
  rw [if_neg (by simp [h])]

/-- The records a non-rejected `_relay` persists. -/
theorem relay_saves_eq (s : Session) (ns : Bool) (env : RelayEnv)
    (h : s.busy = false) :
    (relay s ns env).saves =
      (if isTruthy (relayFinal s ns env).session_id
       then [(relayUpdate s ns (relayFinal s ns env) env.now).toRec] else []) := by
  unfold relay
  rw [if_neg (by simp [h])]

/-- C2.  For every session (of any chat), prompt and outcome — success,
agent error, timeout, or an exception raised during formatting or delivery
(`env.formatRaises`, `env.deliver`) — the busy flag is false immediately
after `_relay` returns: the `finally` block clears it on every exit path. -/
theorem busy_cleared_after_relay (s : Session) (ns : Bool) (env : RelayEnv)
    (h : s.busy = false) :
    (relay s ns env).session.busy = false := by
  rw [relay_session_eq s ns env h]

theorem busy_cleared_after_relay_witness :
    (relay exSession false exEnvTimeout).session.busy = false :=
  busy_cleared_after_relay exSession false exEnvTimeout rfl

/-- C3.  The retry policy of `_relay` (bot.py lines 763-770): when a resume
handle was used and the first invocation returns an error that is not a
timeout, exactly one retry is made with no handle (two invocations total,
whatever the retry's own outcome `env.beh2`); a first invocation made
without a handle, or whose result is a timeout, is never retried; at most
two invocations ever occur. -/
theorem retry_policy (s : Session) (ns : Bool) (env : RelayEnv)
    (h : s.busy = false) :
    ((run_claude (relaySid s ns) COMMAND_TIMEOUT env.beh1).is_error = true →
      (run_claude (relaySid s ns) COMMAND_TIMEOUT env.beh1).timed_out = false →
      isTruthy (relaySid s ns) = true →
      (relay s ns env).calls = [relaySid s ns, none]) ∧
    (isTruthy (relaySid s ns) = false →
      (relay s ns env).calls = [relaySid s ns]) ∧
    ((run_claude (relaySid s ns) COMMAND_TIMEOUT env.beh1).timed_out = true →
      (relay s ns env).calls = [relaySid s ns]) ∧
    (relay s ns env).calls.length ≤ 2 := by
  rw [relay_calls_eq s ns env h]
  unfold relayCalls
  refine ⟨?_, ?_, ?_, ?_⟩
  · intro he ht hs
    rw [if_pos (by unfold relayRetried; rw [he, ht, hs]; rfl)]
  · intro hs
    rw [if_neg (by unfold relayRetried; rw [hs]; simp)]
  · intro ht
    rw [if_neg (by unfold relayRetried; rw [ht]; simp)]
  · show (if relayRetried (run_claude (relaySid s ns) COMMAND_TIMEOUT env.beh1)
          (relaySid s ns) = true
        then [relaySid s ns, none] else [relaySid s ns]).length ≤ 2
    split <;> simp

theorem retry_policy_witness :
    ((run_claude (relaySid exSession false) COMMAND_TIMEOUT
        ProcBehavior.timeout).is_error = true →
      (run_claude (relaySid exSession false) COMMAND_TIMEOUT
        ProcBehavior.timeout).timed_out = false →
      isTruthy (relaySid exSession false) = true →
      (relay exSession false exEnvTimeout).calls = [relaySid exSession false, none]) ∧
    (isTruthy (relaySid exSession false) = false →
      (relay exSession false exEnvTimeout).calls = [relaySid exSession false]) ∧
    ((run_claude (relaySid exSession false) COMMAND_TIMEOUT
        ProcBehavior.timeout).timed_out = true →
      (relay exSession false exEnvTimeout).calls = [relaySid exSession false]) ∧
    (relay exSession false exEnvTimeout).calls.length ≤ 2 :=
  retry_policy exSession false exEnvTimeout rfl

/-- C4 — counterexample to the claim as stated: with a stored handle `"h"`
and a first invocation that times out, the error result echoes the handle
(bot.py line 493), `new_sid` is truthy, and `_relay` increments
`message_count` from 5 to 6 and persists the record — the stored session is
not left unchanged on a timeout. -/
theorem timeout_increments_and_persists :
    (relay exSession false exEnvTimeout).session.message_count = 6 ∧
    (relay exSession false exEnvTimeout).saves =
      [⟨some "h", some "2024-01-01 10:00", 6⟩] ∧
    (relay exSession false exEnvTimeout).calls = [some "h"] := by
  refine ⟨?_, ?_, ?_⟩ <;> decide

/-- C4 — amended.  The durable session record is mutated and persisted
exactly when the final result carries a truthy `session_id`: in that case
the handle is set to it, `message_count` is incremented, `created_at` is
restamped only for a previously-handleless or forced-new session, and
exactly that updated record is persisted.  When the final result's
`session_id` is none (or empty) the record is untouched and nothing is
persisted.  Because failed invocations echo the resume handle they were
given, a timeout (or any non-retried failure) that used a resume handle
falls in the first case, with the handle value itself unchanged. -/
theorem session_update_policy (s : Session) (ns : Bool) (env : RelayEnv)
    (h : s.busy = false) :
    (isTruthy (relayFinal s ns env).session_id = false →
      (relay s ns env).session = { s with busy := false } ∧
      (relay s ns env).saves = []) ∧
    (isTruthy (relayFinal s ns env).session_id = true →
      (relay s ns env).session =
        { session_id := (relayFinal s ns env).session_id,
          created_at :=
            if !isTruthy s.session_id || ns then some env.now else s.created_at,
          message_count := s.message_count + 1,
          busy := false, pending_skill := s.pending_skill } ∧
      (relay s ns env).saves = [(relay s ns env).session.toRec]) := by
  rw [relay_session_eq s ns env h, relay_saves_eq s ns env h]
  unfold relayUpdate
  constructor
  · intro hfalse
    rw [hfalse]
    simp
  · intro htrue
    rw [htrue]
    simp [Session.toRec]

theorem session_update_policy_witness :
    (isTruthy (relayFinal exSession false exEnvTimeout).session_id = false →
      (relay exSession false exEnvTimeout).session = { exSession with busy := false } ∧
      (relay exSession false exEnvTimeout).saves = []) ∧
    (isTruthy (relayFinal exSession false exEnvTimeout).session_id = true →
      (relay exSession false exEnvTimeout).session =
        { session_id := (relayFinal exSession false exEnvTimeout).session_id,
          created_at :=
            if !isTruthy exSession.session_id || false then some exEnvTimeout.now
            else exSession.created_at,
          message_count := exSession.message_count + 1,
          busy := false, pending_skill := exSession.pending_skill } ∧
      (relay exSession false exEnvTimeout).saves =
        [(relay exSession false exEnvTimeout).session.toRec]) :=
  session_update_policy exSession false exEnvTimeout rfl

/-! ## Compaction (C9) -/

/-- C9.  Given a session holding handle `H`, a successful compaction —
summary invocation returning a nonempty summary, then a fresh seeded
invocation returning handle `H'`, which as a fresh (no-resume) conversation
differs from `H` — replaces the session record in one step with
`message_count = 1`, a freshly stamped `created_at`, and handle `H' ≠ H`,
persisting exactly that record; and when the session has no handle,
compaction changes nothing and reports the no-op to the caller. -/
theorem compaction_spec :
    (∀ (s : Session) (env : CompactEnv) (H hh : String),
      s.session_id = some H → H ≠ "" →
      (run_claude (some H) COMMAND_TIMEOUT env.behSummary).result ≠ "" →
      (run_claude none COMMAND_TIMEOUT env.behFresh).session_id = some hh →
      hh ≠ H →
      (cmd_compact s env).session.session_id = some hh ∧
      (cmd_compact s env).session.session_id ≠ some H ∧
      (cmd_compact s env).session.message_count = 1 ∧
      (cmd_compact s env).session.created_at = some env.now ∧
      (cmd_compact s env).saves = [⟨some hh, some env.now, 1⟩] ∧
      (cmd_compact s env).calls = [some H, none]) ∧
    (∀ (s : Session) (env : CompactEnv), isTruthy s.session_id = false →
      (cmd_compact s env).session = s ∧ (cmd_compact s env).saves = [] ∧
      (cmd_compact s env).calls = [] ∧
      (cmd_compact s env).reply = "No active session to compact.") := by
  constructor
  · intro s env H hh hsid hHne hsum hfresh hne
    have htr : isTruthy s.session_id = true := by
      rw [hsid]
      unfold isTruthy
      simp [hHne]
    unfold cmd_compact
    rw [htr, hsid]
    simp only [Bool.not_true, Bool.false_eq_true, if_false]
    rw [if_neg hsum, hfresh]
    refine ⟨rfl, by simp [hne], rfl, rfl, rfl, rfl⟩
  · intro s env hfl
    unfold cmd_compact
    rw [hfl]
    exact ⟨rfl, rfl, rfl, rfl⟩

theorem compaction_spec_witness :
    ((cmd_compact exSession exEnvCompactOk).session.session_id = some "h2" ∧
      (cmd_compact exSession exEnvCompactOk).session.session_id ≠ some "h" ∧
      (cmd_compact exSession exEnvCompactOk).session.message_count = 1 ∧
      (cmd_compact exSession exEnvCompactOk).session.created_at = some "T2" ∧
      (cmd_compact exSession exEnvCompactOk).saves = [⟨some "h2", some "T2", 1⟩] ∧
      (cmd_compact exSession exEnvCompactOk).calls = [some "h", none]) ∧
    ((cmd_compact emptySession exEnvCompactTimeout).session = emptySession ∧
      (cmd_compact emptySession exEnvCompactTimeout).saves = [] ∧
      (cmd_compact emptySession exEnvCompactTimeout).calls = [] ∧
      (cmd_compact emptySession exEnvCompactTimeout).reply
        = "No active session to compact.") :=
  ⟨compaction_spec.1 exSession exEnvCompactOk "h" "h2" rfl (by decide)
      (by decide) rfl (by decide),
   compaction_spec.2 emptySession exEnvCompactTimeout rfl⟩

/-! ## Authorization (C10) -/

/-- C10.  Once an owner is recorded, an update from any other user id is
answered with "Unauthorized." and the wrapped handler never runs, so the
bot state it would have transformed — sessions, settings, recents,
subprocess spawns — is returned untouched and the owner is unchanged;
before any owner is recorded, the first user to interact is saved as the
owner and their handler runs. -/
theorem auth_spec :
    (∀ (α : Type) (handler : α → α) (o uid : Nat) (st : α), uid ≠ o →
      auth_wrapper handler (some o) uid st = (some o, st, some "Unauthorized.")) ∧
    (∀ (α : Type) (handler : α → α) (uid : Nat) (st : α),
      auth_wrapper handler none uid st = (some uid, handler st, none)) := by
  constructor
  · intro α handler o uid st hne
    show (if uid = o then (some o, handler st, none)
        else (some o, st, some "Unauthorized."))
      = (some o, st, some "Unauthorized.")
    rw [if_neg hne]
  · intro α handler uid st
    rfl

theorem auth_spec_witness :
    auth_wrapper (fun n => n + 1) (some 1) 2 (0 : Nat) =
      (some 1, 0, some "Unauthorized.") ∧
    auth_wrapper (fun n => n + 1) none 2 (0 : Nat) = (some 2, 1, none) :=
  ⟨auth_spec.1 Nat (fun n => n + 1) 1 2 0 (by decide),
   auth_spec.2 Nat (fun n => n + 1) 2 0⟩

/-! ## Single-flight gate (C1) -/

/-- C1 — the code at the failing input.  From an idle chat: a relay starts
(one spawn, busy set); a second relay and a callback relay issued before it
completes are rejected with the busy notice and spawn nothing, and so is a
callback compaction — but `/compact` (`cmd_compact`) never checks the busy
flag, so issued at the same point it spawns its summary subprocess while
the relay's subprocess is still alive: two non-terminated invocations for
one chat, violating the at-most-one invariant. -/
theorem compact_bypasses_busy_gate :
    (relayBegin initGate).inflight = 1 ∧
    (relayBegin (relayBegin initGate)).spawns = 1 ∧
    (relayBegin (relayBegin initGate)).notices = 1 ∧
    (relayBegin (relayBegin initGate)).inflight = 1 ∧
    (callbackRelayBegin (relayBegin initGate)).spawns = 1 ∧
    (callbackCompactBegin true (relayBegin initGate)).inflight = 1 ∧
    (compactBegin true (relayBegin initGate)).inflight = 2 ∧
    (compactBegin true (relayBegin initGate)).spawns = 2 := by
  refine ⟨?_, ?_, ?_, ?_, ?_, ?_, ?_, ?_⟩ <;> decide

/-! ## CPU watchdog (C6) -/

/-- C6 — counterexample to the claim as stated: a process whose sampled CPU
value is constant across 7 consecutive 10-second samples — and indeed equal
to the initial reading, hence unchanged for 70 seconds — is NOT terminated
at the default 60s threshold, because `stale_since` is only started at the
first sample that repeats the previous value and the kill requires strictly
more than 60s beyond that point (bot.py lines 436-447). -/
theorem watchdog_seven_samples_no_kill :
    watchdogKill 5 (List.replicate 7 5) 60 = none := by decide

/-- A watchdog over a run whose every sample differs from the previous
reading never kills: the stale timer is reset at each sample. -/
theorem cpu_watchdog_active (samples : List Nat) :
    ∀ (c0 t limit : Nat), List.Chain' (fun a b => a ≠ b) (c0 :: samples) →
      cpu_watchdog c0 none t samples limit = none := by
  induction samples with
  | nil =>
    intro c0 t limit _
    rfl
  | cons cpu rest ih =>
    intro c0 t limit hch
    have h1 : c0 ≠ cpu := (List.chain'_cons.mp hch).1
    have h2 : List.Chain' (fun a b => a ≠ b) (cpu :: rest) :=
      (List.chain'_cons.mp hch).2
    have hne : ¬ (cpu = c0) := fun he => h1 he.symm
    simp only [cpu_watchdog, hne, if_false]
    exact ih cpu (t + 10) limit h2

/-- C6 — amended.  At the default 60s threshold, a process whose sampled
CPU value never changes is killed at the 8th loop sample (t = 80s, i.e. the
9th consecutive identical reading counting the initial one), whatever
happens afterwards; and a process whose sampled CPU value changes on every
sample is never terminated by the watchdog, regardless of how long it runs
and of the threshold. -/
theorem watchdog_policy :
    (∀ (c : Nat) (rest : List Nat),
      watchdogKill c (List.replicate 8 c ++ rest) 60 = some 80) ∧
    (∀ (c0 : Nat) (samples : List Nat),
      List.Chain' (fun a b => a ≠ b) (c0 :: samples) →
      ∀ limit, watchdogKill c0 samples limit = none) := by
  constructor
  · intro c rest
    simp [watchdogKill, cpu_watchdog, List.replicate_succ]
  · intro c0 samples hch limit
    exact cpu_watchdog_active samples c0 0 limit hch

theorem watchdog_policy_witness :
    watchdogKill 3 (List.replicate 8 3 ++ []) 60 = some 80 ∧
    watchdogKill 0 [1, 0, 1, 0] 60 = none :=
  ⟨watchdog_policy.1 3 [],
   watchdog_policy.2 0 [1, 0, 1, 0] (by simp [List.chain'_cons]) 60⟩

end Bridge
